import Mathlib

/-!
Verification of src/ocrmypdf/hocrtransform/_canvas.py (OCRmyPDF hOCR canvas).

Shallow embedding of the content-stream builder, the glyphless font
registration, the canvas accessor / canvas / text-run classes, and proofs of
the specification claims about them.

Modelling conventions:
* Python numbers (ints and floats used as PDF operands) are modelled as `ℚ`.
* `pikepdf.ContentStreamInstruction(operands, Operator(op))` is a record of an
  operand list and the operator string.
* Byte strings are `List Nat` (one entry per byte).
* Python exceptions are modelled with an explicit `Bool` flag ("raised"):
  stateful operations that can raise return `state × Bool`, and mutations made
  before the raise persist, exactly as for Python mutable objects.
* External collaborators (pikepdf object allocation, PIL image decoding, the
  `unicodedata` normalizer, `pikepdf.Name.random`) are opaque services: their
  outputs are passed in as parameters where the code consumes them.
-/

set_option linter.unusedVariables false

namespace OCRCanvas

/-- PDF content stream operand (numbers, names, byte strings, nested arrays,
small dictionaries), per pikepdf operand values used in `_canvas.py`. -/
inductive Operand where
  | num (q : ℚ)
  | name (s : String)
  | bytes (bs : List Nat)
  | arr (elems : List Operand)
  | dict (entries : List (String × Operand))

/-- Python `pikepdf.ContentStreamInstruction(operands, Operator(op))`. -/
structure ContentStreamInstruction where
  operands : List Operand
  op : String

/-- UTF-16BE encoding of one character, as produced by Python
`str.encode("utf-16be")` for one code point. -/
def utf16beChar (c : Char) : List Nat :=
  let n := c.toNat
  if n < 0x10000 then [n / 256, n % 256]
  else
    let m := n - 0x10000
    let hi := 0xD800 + m / 0x400
    let lo := 0xDC00 + m % 0x400
    [hi / 256, hi % 256, lo / 256, lo % 256]

/-- Python `text.encode("utf-16be")`. -/
def utf16be (s : String) : List Nat :=
  (s.data.map utf16beChar).flatten

/-- Matrix operand `pikepdf.Matrix(a, b, c, d, e, f)`. -/
structure PdfMatrix where
  a : ℚ
  b : ℚ
  c : ℚ
  d : ℚ
  e : ℚ
  f : ℚ

/-- Field `Matrix.shorthand`: the six coefficients in order. -/
def PdfMatrix.shorthand (m : PdfMatrix) : List Operand :=
  [.num m.a, .num m.b, .num m.c, .num m.d, .num m.e, .num m.f]

/-- Argument to `ContentStreamBuilder.set_dashes`: the Python parameter
`array` is `None` (default), a single number, or a sequence of numbers. -/
inductive DashesArg where
  | noneArg
  | numArg (n : ℚ)
  | arrArg (xs : List ℚ)

/-- Class `ContentStreamBuilder`: ordered, append-only instruction list. -/
structure ContentStreamBuilder where
  instructions : List ContentStreamInstruction

namespace ContentStreamBuilder

/-- Append one instruction (`self._instructions.append(inst)`). -/
def append (cs : ContentStreamBuilder) (i : ContentStreamInstruction) :
    ContentStreamBuilder :=
  ⟨cs.instructions ++ [i]⟩

/-- Save the graphics state (`q`). -/
def push (cs : ContentStreamBuilder) : ContentStreamBuilder :=
  cs.append ⟨[], "q"⟩

/-- Restore the graphics state (`Q`). -/
def pop (cs : ContentStreamBuilder) : ContentStreamBuilder :=
  cs.append ⟨[], "Q"⟩

/-- Concatenate matrix (`cm`). -/
def cm (cs : ContentStreamBuilder) (matrix : PdfMatrix) : ContentStreamBuilder :=
  cs.append ⟨matrix.shorthand, "cm"⟩

/-- Begin text object (`BT`). -/
def begin_text (cs : ContentStreamBuilder) : ContentStreamBuilder :=
  cs.append ⟨[], "BT"⟩

/-- End text object (`ET`). -/
def end_text (cs : ContentStreamBuilder) : ContentStreamBuilder :=
  cs.append ⟨[], "ET"⟩

/-- Begin marked content sequence with property list (`BDC`). -/
def begin_marked_content_proplist (cs : ContentStreamBuilder)
    (mctype : String) (mcid : ℚ) : ContentStreamBuilder :=
  cs.append ⟨[.name mctype, .dict [("MCID", .num mcid)]], "BDC"⟩

/-- Begin marked content sequence (`BMC`). -/
def begin_marked_content (cs : ContentStreamBuilder) (mctype : String) :
    ContentStreamBuilder :=
  cs.append ⟨[.name mctype], "BMC"⟩

/-- End marked content sequence (`EMC`). -/
def end_marked_content (cs : ContentStreamBuilder) : ContentStreamBuilder :=
  cs.append ⟨[], "EMC"⟩

/-- Set text font and size (`Tf`). -/
def set_text_font (cs : ContentStreamBuilder) (font : String) (size : ℚ) :
    ContentStreamBuilder :=
  cs.append ⟨[.name font, .num size], "Tf"⟩

/-- Set text matrix (`Tm`). -/
def set_text_matrix (cs : ContentStreamBuilder) (matrix : PdfMatrix) :
    ContentStreamBuilder :=
  cs.append ⟨matrix.shorthand, "Tm"⟩

/-- Set text rendering mode (`Tr`). -/
def set_text_rendering (cs : ContentStreamBuilder) (mode : ℚ) :
    ContentStreamBuilder :=
  cs.append ⟨[.num mode], "Tr"⟩

/-- Set text horizontal scaling (`Tz`). -/
def set_text_horizontal_scaling (cs : ContentStreamBuilder) (scale : ℚ) :
    ContentStreamBuilder :=
  cs.append ⟨[.num scale], "Tz"⟩

/-- Show text (`TJ`): operand is `[[text.encode("utf-16be")]]`. -/
def show_text (cs : ContentStreamBuilder) (text : String) :
    ContentStreamBuilder :=
  cs.append ⟨[.arr [.bytes (utf16be text)]], "TJ"⟩

/-- Move cursor (`Td`). -/
def move_cursor (cs : ContentStreamBuilder) (dx dy : ℚ) :
    ContentStreamBuilder :=
  cs.append ⟨[.num dx, .num dy], "Td"⟩

/-- Stroke and close path (`s`). -/
def stroke_and_close (cs : ContentStreamBuilder) : ContentStreamBuilder :=
  cs.append ⟨[], "s"⟩

/-- Fill path (`f`). -/
def fill (cs : ContentStreamBuilder) : ContentStreamBuilder :=
  cs.append ⟨[], "f"⟩

/-- Append rectangle to path (`re`). -/
def append_rectangle (cs : ContentStreamBuilder) (x y w h : ℚ) :
    ContentStreamBuilder :=
  cs.append ⟨[.num x, .num y, .num w, .num h], "re"⟩

/-- Set RGB stroke color (`RG`). -/
def set_stroke_color (cs : ContentStreamBuilder) (r g b : ℚ) :
    ContentStreamBuilder :=
  cs.append ⟨[.num r, .num g, .num b], "RG"⟩

/-- Set RGB fill color (`rg`). -/
def set_fill_color (cs : ContentStreamBuilder) (r g b : ℚ) :
    ContentStreamBuilder :=
  cs.append ⟨[.num r, .num g, .num b], "rg"⟩

/-- Set line width (`w`). -/
def set_line_width (cs : ContentStreamBuilder) (width : ℚ) :
    ContentStreamBuilder :=
  cs.append ⟨[.num width], "w"⟩

/-- Draw line (`m` then `l`). -/
def line (cs : ContentStreamBuilder) (x1 y1 x2 y2 : ℚ) :
    ContentStreamBuilder :=
  ⟨cs.instructions ++ [⟨[.num x1, .num y1], "m"⟩, ⟨[.num x2, .num y2], "l"⟩]⟩

/-- Set dashes (`d`).  Mirrors the Python reassignments: a `None` array
becomes `[]`; a single number becomes the pair `(array, phase)` with the
phase reset to `0`; a sequence is passed through with the given phase. -/
def set_dashes (cs : ContentStreamBuilder) (array : DashesArg) (phase : ℚ) :
    ContentStreamBuilder :=
  match array with
  | .noneArg => cs.append ⟨[.arr [], .num phase], "d"⟩
  | .numArg n => cs.append ⟨[.arr [.num n, .num phase], .num 0], "d"⟩
  | .arrArg xs => cs.append ⟨[.arr (xs.map .num), .num phase], "d"⟩

/-- Draw form XObject (`Do`). -/
def draw_form_xobject (cs : ContentStreamBuilder) (nm : String) :
    ContentStreamBuilder :=
  cs.append ⟨[.name nm], "Do"⟩

/-- Return the instruction list (`build`). -/
def build (cs : ContentStreamBuilder) : List ContentStreamInstruction :=
  cs.instructions

end ContentStreamBuilder

/-- Constant `CHAR_ASPECT = 2`: assumed glyph aspect ratio. -/
def CHAR_ASPECT : ℕ := 2

/-- Bytes of the CIDToGIDMap stream built by `register_glyphlessfont`:
Python `b"\x00\x01" * 65536`. -/
def cidToGIDMapData : List Nat :=
  (List.replicate 65536 ([0, 1] : List Nat)).flatten

/-- The ToUnicode CMap stream content, line by line.  Each element mirrors one
byte-string literal of the Python source (each literal ends in a newline). -/
def toUnicodeCMapLines : List String :=
  [ "/CIDInit /ProcSet findresource begin"
  , "12 dict begin"
  , "begincmap"
  , "/CIDSystemInfo"
  , "<<"
  , "  /Registry (Adobe)"
  , "  /Ordering (UCS)"
  , "  /Supplement 0"
  , ">> def"
  , "/CMapName /Adobe-Identify-UCS def"
  , "/CMapType 2 def"
  , "1 begincodespacerange"
  , "<0000> <FFFF>"
  , "endcodespacerange"
  , "1 beginbfrange"
  , "<0000> <FFFF> <0000>"
  , "endbfrange"
  , "endcmap"
  , "CMapName currentdict /CMap defineresource pop"
  , "end"
  , "end" ]

/-- Full ToUnicode CMap stream, as passed to `pdf.make_stream`. -/
def toUnicodeCMapData : String :=
  String.join (toUnicodeCMapLines.map (fun l => l ++ "\n"))

/-- The glyphless font object graph built by `register_glyphlessfont`.
The pikepdf `Dictionary`/`make_stream`/`make_indirect` services are external;
the record keeps the fields the code writes into them.  `fontFile2Present`
stands for the embedded `GLYPHLESS_FONT` program bytes (external data file). -/
structure GlyphlessFont where
  baseFont : String
  encoding : String
  subtype : String
  descendantSubtype : String
  registry : String
  ordering : String
  supplement : ℤ
  dw : ℤ
  cidToGIDMap : List Nat
  toUnicode : String
  ascent : ℤ
  capHeight : ℤ
  descent : ℤ
  flags : ℤ
  fontBBox : List ℤ
  italicAngle : ℤ
  stemV : ℤ
  fontFile2Present : Bool

/-- Python `register_glyphlessfont(pdf)`. -/
def register_glyphlessfont : GlyphlessFont :=
  { baseFont := "/GlyphLessFont"
    encoding := "/Identity-H"
    subtype := "/Type0"
    descendantSubtype := "/CIDFontType2"
    registry := "Adobe"
    ordering := "Identity"
    supplement := 0
    dw := 1000 / (CHAR_ASPECT : ℤ)
    cidToGIDMap := cidToGIDMapData
    toUnicode := toUnicodeCMapData
    ascent := 1000
    capHeight := 1000
    descent := -1
    flags := 5
    fontBBox := [0, 0, 1000 / (CHAR_ASPECT : ℤ), 1000]
    italicAngle := 0
    stemV := 80
    fontFile2Present := true }

/-- PIL image handle: the decoding service is external; only the fields the
canvas code reads are kept. -/
structure PILImage where
  mode : String
  width : ℕ
  height : ℕ

/-- PIL `image.convert("RGB")`, an external service: yields an RGB-mode
image of the same dimensions. -/
def PILImage.convertRGB (im : PILImage) : PILImage :=
  { im with mode := "RGB" }

/-- Class `LoadedImage` dataclass. -/
structure LoadedImage where
  name : String
  image : PILImage

/-- Text direction marker.  The Python source assigns both members the same
value (`LTR = ...` and `RTL = ...`, both `Ellipsis`), and a Python `Enum`
makes a member with a repeated value an alias of the first: the enum has the
single member `LTR`, and `TextDirection.RTL is TextDirection.LTR` holds.  The
embedding therefore has one constructor, with `RTL` defined as an alias. -/
inductive TextDirection where
  | LTR
deriving DecidableEq

/-- Alias member `TextDirection.RTL`: equal to `LTR` because both were
assigned the same value `...` in the enum definition. -/
def TextDirection.RTL : TextDirection := TextDirection.LTR

/-- Class `PikepdfCanvasAccessor` state: the shared content-stream builder, the
shared pending-image list, and the accessor's own `_stack_depth` counter. -/
structure PikepdfCanvasAccessor where
  cs : ContentStreamBuilder
  images : List LoadedImage
  stack_depth : ℤ

namespace PikepdfCanvasAccessor

/-- Python `stroke_color(color)`. -/
def stroke_color (s : PikepdfCanvasAccessor) (r g b : ℚ) :
    PikepdfCanvasAccessor :=
  { s with cs := s.cs.set_stroke_color r g b }

/-- Python `fill_color(color)`. -/
def fill_color (s : PikepdfCanvasAccessor) (r g b : ℚ) :
    PikepdfCanvasAccessor :=
  { s with cs := s.cs.set_fill_color r g b }

/-- Python `line_width(width)`. -/
def line_width (s : PikepdfCanvasAccessor) (w : ℚ) : PikepdfCanvasAccessor :=
  { s with cs := s.cs.set_line_width w }

/-- Python `line(x1, y1, x2, y2)`. -/
def line (s : PikepdfCanvasAccessor) (x1 y1 x2 y2 : ℚ) :
    PikepdfCanvasAccessor :=
  { s with cs := (s.cs.line x1 y1 x2 y2).stroke_and_close }

/-- Python `rect(x, y, w, h, fill)`. -/
def rect (s : PikepdfCanvasAccessor) (x y w h : ℚ) (fill : Bool) :
    PikepdfCanvasAccessor :=
  if fill then { s with cs := (s.cs.append_rectangle x y w h).fill }
  else { s with cs := (s.cs.append_rectangle x y w h).stroke_and_close }

/-- Python `dashes(*args)` pass-through to `set_dashes`. -/
def dashes (s : PikepdfCanvasAccessor) (array : DashesArg) (phase : ℚ) :
    PikepdfCanvasAccessor :=
  { s with cs := s.cs.set_dashes array phase }

/-- Python `push()`: emit `q` and increment this accessor's depth counter. -/
def push (s : PikepdfCanvasAccessor) : PikepdfCanvasAccessor :=
  { s with cs := s.cs.push, stack_depth := s.stack_depth + 1 }

/-- Python `pop()`: emit `Q` and decrement this accessor's depth counter. -/
def pop (s : PikepdfCanvasAccessor) : PikepdfCanvasAccessor :=
  { s with cs := s.cs.pop, stack_depth := s.stack_depth - 1 }

/-- Python `cm(matrix)`. -/
def cm (s : PikepdfCanvasAccessor) (matrix : PdfMatrix) :
    PikepdfCanvasAccessor :=
  { s with cs := s.cs.cm matrix }

/-- Python `enter_context()`: the `@contextmanager` generator `push(); yield; pop()`.
The body of the `with` block is `body : state → state × Bool`, the `Bool`
marking an exception raised inside the block.  Since the generator has no
try/finally, the code after `yield` runs only when the block exits normally:
on an exception the generator is never resumed past `yield`, so no `pop()`
happens on that path. -/
def enter_context (s : PikepdfCanvasAccessor)
    (body : PikepdfCanvasAccessor → PikepdfCanvasAccessor × Bool) :
    PikepdfCanvasAccessor × Bool :=
  let s1 := s.push
  let r := body s1
  if r.2 then (r.1, true) else (r.1.pop, false)

/-- Python `draw_image(image, x, y, width, height)` for an already-decoded image
(the path-loading branch is external I/O).  `randomName` is the value the
external `pikepdf.Name.random` RNG returns for this call; the code performs
no collision check on it. -/
def draw_image (s : PikepdfCanvasAccessor) (image : PILImage)
    (x y width height : ℚ) (randomName : String) :
    PikepdfCanvasAccessor × Bool :=
  s.enter_context (fun s0 =>
    let s1 := s0.cm ⟨width, 0, 0, height, x, y⟩
    let image := if image.mode = "P" then image.convertRGB else image
    if image.mode ∈ (["1", "L", "RGB"] : List String) then
      let li : LoadedImage := { name := randomName, image := image }
      let s2 := { s1 with images := s1.images ++ [li] }
      ({ s2 with cs := s2.cs.draw_form_xobject randomName }, false)
    else
      (s1, true))

end PikepdfCanvasAccessor

/-- Class `PikepdfCanvas` state.  In Python the canvas and its accessor share the
same `ContentStreamBuilder` and image list (aliased), so those live inside
`acc`; the canvas's own `_stack_depth` attribute is a separate integer that
is distinct from the accessor's `_stack_depth`. -/
structure PikepdfCanvas where
  page_size : ℚ × ℚ
  acc : PikepdfCanvasAccessor
  canvas_stack_depth : ℤ
  font_name : String

namespace PikepdfCanvas

/-- Python `PikepdfCanvas.__init__(page_size=...)`: fresh builder and image list,
both depth counters start at `0`, `self._font_name = Name("/f-0-0")`, and one
initial `self.do.push()` (which updates the accessor's counter only). -/
def construct (page_size : ℚ × ℚ) : PikepdfCanvas :=
  { page_size := page_size
    acc := PikepdfCanvasAccessor.push ⟨⟨[]⟩, [], 0⟩
    canvas_stack_depth := 0
    font_name := "/f-0-0" }

/-- Python `canvas.do.push()`: goes through the accessor; the canvas's own
`_stack_depth` attribute is not touched. -/
def doPush (c : PikepdfCanvas) : PikepdfCanvas :=
  { c with acc := c.acc.push }

/-- Python `canvas.do.pop()`: goes through the accessor; the canvas's own
`_stack_depth` attribute is not touched. -/
def doPop (c : PikepdfCanvas) : PikepdfCanvas :=
  { c with acc := c.acc.pop }

/-- Python `string_width(text, fontname, fontsize)`.  The normalizer
`unicodedata.normalize("NFKC", ...)` is the external Unicode library; it is
passed in as `nfkcNormalize`. -/
def string_width (nfkcNormalize : String → String) (text : String)
    (fontname : String) (fontsize : ℚ) : ℚ :=
  ((nfkcNormalize text).length : ℚ) * (fontsize / (CHAR_ASPECT : ℚ))

/-- The page committed by `PikepdfCanvas.save`: warning count from the
stack-imbalance check, serialized contents, media box, and the resource
dictionaries (font name ↦ glyphless font, image name ↦ image). -/
structure SavedPage where
  warnings : ℕ
  contents : List ContentStreamInstruction
  mediaBox : List ℚ
  fontResources : List (String × GlyphlessFont)
  xobjectResources : List (String × PILImage)

/-- Python `save(output_file)`: pop the initial push through the accessor, warn iff
`self._stack_depth != 0` (the canvas's own attribute), then serialize the
stream, set the media box, and build the resource dictionaries.  Returns per
the model both the committed page and the final accessor state. -/
def save (c : PikepdfCanvas) : SavedPage × PikepdfCanvasAccessor :=
  let acc1 := c.acc.pop
  ({ warnings := if c.canvas_stack_depth ≠ 0 then 1 else 0
     contents := acc1.cs.build
     mediaBox := [0, 0, c.page_size.1, c.page_size.2]
     fontResources := [(c.font_name, register_glyphlessfont)]
     xobjectResources := acc1.images.map (fun li => (li.name, li.image)) },
   acc1)

end PikepdfCanvas

/-- Class `PikepdfText` state. -/
structure PikepdfText where
  cs : ContentStreamBuilder
  p0 : ℚ × ℚ
  direction : TextDirection

namespace PikepdfText

/-- Python `PikepdfText.__init__(x, y, direction)`: begins a text object. -/
def construct (x y : ℚ) (direction : TextDirection) : PikepdfText :=
  { cs := ContentStreamBuilder.begin_text ⟨[]⟩
    p0 := (x, y)
    direction := direction }

/-- Python `set_font(font, size)`: the `font` argument is ignored; the emitted `Tf`
instruction always names `/f-0-0`. -/
def set_font (t : PikepdfText) (font : String) (size : ℚ) : PikepdfText :=
  { t with cs := t.cs.set_text_font "/f-0-0" size }

/-- Python `set_render_mode(mode)`. -/
def set_render_mode (t : PikepdfText) (mode : ℚ) : PikepdfText :=
  { t with cs := t.cs.set_text_rendering mode }

/-- Python `set_text_transform(matrix)`. -/
def set_text_transform (t : PikepdfText) (matrix : PdfMatrix) : PikepdfText :=
  { t with cs := t.cs.set_text_matrix matrix, p0 := (matrix.e, matrix.f) }

/-- Python `show(text)` (named `showRun` because `show` is reserved in Lean).
The branch structure mirrors the source: the equality test against `LTR`
selects the bare show instruction, the else branch wraps the show in a
`/ReversedChars` marked-content region.  Because `RTL` is an alias of `LTR`,
the test is always true and the else branch is unreachable. -/
def showRun (t : PikepdfText) (text : String) : PikepdfText :=
  if t.direction = TextDirection.LTR then
    { t with cs := t.cs.show_text text }
  else
    { t with cs :=
        ((t.cs.begin_marked_content "/ReversedChars").show_text
          text).end_marked_content }

/-- Python `set_horiz_scale(scale)`. -/
def set_horiz_scale (t : PikepdfText) (scale : ℚ) : PikepdfText :=
  { t with cs := t.cs.set_text_horizontal_scaling scale }

/-- Python `move_cursor(x, y)`. -/
def move_cursor (t : PikepdfText) (x y : ℚ) : PikepdfText :=
  { t with cs := t.cs.move_cursor x y }

end PikepdfText

/-! ## Decoders and helpers used to state the claims -/

/-- Byte at index `i` of a byte string (0 beyond the end). -/
def byteAt (bs : List Nat) (i : ℕ) : ℕ :=
  bs.getD i 0

/-- The `c`-th big-endian 16-bit value of a byte string. -/
def beWord (bs : List Nat) (c : ℕ) : ℕ :=
  256 * byteAt bs (2 * c) + byteAt bs (2 * c + 1)

/-- Does `l` end with `tok`? -/
def strEndsWith (l tok : String) : Bool :=
  l.data.reverse.take tok.data.length == tok.data.reverse

/-- The lines of `ls` ending with `tok`. -/
def linesEndingWith (ls : List String) (tok : String) : List String :=
  ls.filter (fun l => strEndsWith l tok)

/-- The entry lines strictly between the first line ending with `beginTok`
and the next line equal to `endTok`. -/
def sectionEntries (ls : List String) (beginTok endTok : String) :
    List String :=
  ((ls.dropWhile (fun l => ! strEndsWith l beginTok)).drop 1).takeWhile
    (fun l => ! (l == endTok))

/-- Value of one hexadecimal digit character. -/
def hexVal (c : Char) : ℕ :=
  if c.toNat ≥ 97 then c.toNat - 87
  else if c.toNat ≥ 65 then c.toNat - 55
  else c.toNat - 48

/-- Parse a `<hhhh>` hex token (angle brackets ignored). -/
def parseHexToken (cs : List Char) : ℕ :=
  (cs.filter (fun c => !(c == '<') && !(c == '>'))).foldl
    (fun a c => 16 * a + hexVal c) 0

/-- The numeric triple `[lo, hi, dst]` of the single bfrange entry of the
ToUnicode CMap (empty if the section does not hold exactly one entry). -/
def bfrangeEntryValues : List ℕ :=
  match sectionEntries toUnicodeCMapLines "beginbfrange" "endbfrange" with
  | [entry] => (entry.data.splitOn ' ').map parseHexToken
  | _ => []

/-- The code-to-Unicode mapping a bfrange triple `[lo, hi, dst]` denotes on a
code in its range: `dst + (c - lo)`. -/
def bfrangeImage (vals : List ℕ) (c : ℕ) : ℕ :=
  match vals with
  | [lo, _hi, dst] => dst + (c - lo)
  | _ => 0

/-- Operator names of an instruction list. -/
def opNames (l : List ContentStreamInstruction) : List String :=
  l.map (fun i => i.op)

/-- Issue a sequence of `canvas.do.push()` (`true`) and `canvas.do.pop()`
(`false`) calls in order. -/
def applyPushPops : List Bool → PikepdfCanvas → PikepdfCanvas
  | [], c => c
  | op :: ops, c => applyPushPops ops (if op then c.doPush else c.doPop)

/-- A fresh accessor as `PikepdfCanvasAccessor.__init__` makes one. -/
def accEmpty : PikepdfCanvasAccessor :=
  ⟨⟨[]⟩, [], 0⟩

/-- A `with` block body that raises immediately. -/
def raisingBody : PikepdfCanvasAccessor → PikepdfCanvasAccessor × Bool :=
  fun s => (s, true)

/-- A `with` block body that appends the given instructions and then either
returns normally (`exn = false`) or raises (`exn = true`). -/
def appendingBody (app : List ContentStreamInstruction) (exn : Bool) :
    PikepdfCanvasAccessor → PikepdfCanvasAccessor × Bool :=
  fun s => ({ s with cs := ⟨s.cs.instructions ++ app⟩ }, exn)

/-- A 1×1 CMYK image: its resolved mode is unsupported by `draw_image`. -/
def cmykImage : PILImage :=
  ⟨"CMYK", 1, 1⟩

/-- A 1×1 RGB image: supported by `draw_image`. -/
def rgbImage : PILImage :=
  ⟨"RGB", 1, 1⟩

/-! ## Helper lemmas -/

theorem byteAt_cidToGIDMap (n i : ℕ) (h : i < n) :
    byteAt ((List.replicate n ([0, 1] : List Nat)).flatten) (2 * i) = 0 ∧
    byteAt ((List.replicate n ([0, 1] : List Nat)).flatten) (2 * i + 1) = 1 := by
  induction n generalizing i with
  | zero => omega
  | succ n ih =>
    rw [List.replicate_succ, List.flatten_cons]
    cases i with
    | zero => simp [byteAt]
    | succ j =>
      have h2 : 2 * (j + 1) = 2 * j + 1 + 1 := by ring
      rw [h2]
      simpa [byteAt, List.cons_append, List.getD_cons_succ] using
        ih j (by omega)

theorem cidToGIDMap_length (n : ℕ) :
    ((List.replicate n ([0, 1] : List Nat)).flatten).length = 2 * n := by
  induction n with
  | zero => rfl
  | succ n ih =>
    rw [List.replicate_succ, List.flatten_cons, List.length_append, ih]
    show 2 + 2 * n = 2 * (n + 1)
    omega

theorem beWord_cidToGIDMap (c : ℕ) (h : c < 65536) :
    beWord cidToGIDMapData c = 1 := by
  have hb := byteAt_cidToGIDMap 65536 c h
  rw [beWord, cidToGIDMapData, hb.1, hb.2]

theorem applyPushPops_canvas_depth (ops : List Bool) (c : PikepdfCanvas) :
    (applyPushPops ops c).canvas_stack_depth = c.canvas_stack_depth := by
  induction ops generalizing c with
  | nil => rfl
  | cons op ops ih =>
    cases op <;>
      simp [applyPushPops, PikepdfCanvas.doPush, PikepdfCanvas.doPop, ih]

theorem applyPushPops_acc_depth (ops : List Bool) (c : PikepdfCanvas) :
    (applyPushPops ops c).acc.stack_depth
      = c.acc.stack_depth + (ops.count true : ℤ) - (ops.count false : ℤ) := by
  induction ops generalizing c with
  | nil => simp [applyPushPops]
  | cons op ops ih =>
    cases op <;>
      · rw [applyPushPops, ih]
        simp [PikepdfCanvas.doPush, PikepdfCanvas.doPop,
          PikepdfCanvasAccessor.push, PikepdfCanvasAccessor.pop,
          List.count_cons]
        ring

/-! ## Claim theorems -/

/-- C1 (counterexample): it is false that for every code `c` in `0..65535`
the `c`-th big-endian 16-bit value of the CIDToGIDMap stream equals `c`: the
stream is `b"\x00\x01" * 65536`, so the value at code `0` is `1`, not `0`. -/
theorem C1_counterexample :
    ¬ (∀ c, c < 65536 → beWord cidToGIDMapData c = c) := by
  intro hid
  have h0 := hid 0 (by norm_num)
  have h1 := beWord_cidToGIDMap 0 (by norm_num)
  omega

/-- C1 (amended): the CIDToGIDMap stream built by font registration is
131072 bytes long and its `c`-th big-endian 16-bit value equals `1` for
every code `c` in `0..65535`: it maps every CID to glyph id 1, the single
glyph of the glyphless font, not to the code itself. -/
theorem C1_cidToGIDMap_maps_all_codes_to_glyph_one (c : ℕ) (h : c < 65536) :
    beWord register_glyphlessfont.cidToGIDMap c = 1 ∧
    register_glyphlessfont.cidToGIDMap.length = 131072 := by
  constructor
  · exact beWord_cidToGIDMap c h
  · show cidToGIDMapData.length = 131072
    rw [cidToGIDMapData, cidToGIDMap_length]

/-- C1 witness: the amended theorem applied at code 3. -/
theorem C1_witness :
    3 < 65536 ∧
    (beWord register_glyphlessfont.cidToGIDMap 3 = 1 ∧
      register_glyphlessfont.cidToGIDMap.length = 131072) :=
  ⟨by norm_num, C1_cidToGIDMap_maps_all_codes_to_glyph_one 3 (by norm_num)⟩

/-- C2 (code bug): for any sequence of push/pop calls issued through the
canvas, `save` logs no warning at all — `save` tests the canvas's own
`_stack_depth` attribute, which `push`/`pop` never modify (they update the
accessor's counter) — while the accessor's tracked depth after `save` does
equal `N - M`.  In particular with `N = 1` push and `M = 0` pops the claim
asserts exactly one warning, but the code logs zero. -/
theorem C2_save_never_warns :
    (∀ ops pw ph,
      ((applyPushPops ops (PikepdfCanvas.construct (pw, ph))).save).1.warnings
        = 0) ∧
    (∀ ops pw ph,
      ((applyPushPops ops (PikepdfCanvas.construct (pw, ph))).save).2.stack_depth
        = (ops.count true : ℤ) - (ops.count false : ℤ)) ∧
    ((applyPushPops [true] (PikepdfCanvas.construct (612, 792))).save).1.warnings
      = 0 := by
  refine ⟨fun ops pw ph => ?_, fun ops pw ph => ?_, ?_⟩
  · simp [PikepdfCanvas.save, applyPushPops_canvas_depth,
      PikepdfCanvas.construct]
  · simp only [PikepdfCanvas.save, PikepdfCanvasAccessor.pop,
      applyPushPops_acc_depth, PikepdfCanvas.construct,
      PikepdfCanvasAccessor.push]
    omega
  · rfl

/-- C3 (counterexample): when the body of the scoped graphics-state context
raises, the exception propagates with the depth counter still incremented and
no `Q` emitted — the pop is not guaranteed on the exception exit path. -/
theorem C3_counterexample :
    (accEmpty.enter_context raisingBody).2 = true ∧
    (accEmpty.enter_context raisingBody).1.stack_depth ≠ accEmpty.stack_depth ∧
    opNames (accEmpty.enter_context raisingBody).1.cs.instructions = ["q"] := by
  refine ⟨rfl, by decide, rfl⟩

/-- C3 (amended): `enter_context` emits a push on entry and increments the
depth; when the body runs to completion it emits the matching pop and
restores the depth on exit; but when the body raises, the exception
propagates without a pop being emitted or the depth being decremented (the
generator-based context manager has no try/finally). -/
theorem C3_enter_context_pop_only_on_normal_exit
    (app : List ContentStreamInstruction) (s : PikepdfCanvasAccessor) :
    (s.enter_context (appendingBody app false)).1.cs.instructions
      = s.cs.instructions ++ [⟨[], "q"⟩] ++ app ++ [⟨[], "Q"⟩] ∧
    (s.enter_context (appendingBody app false)).1.stack_depth = s.stack_depth ∧
    (s.enter_context (appendingBody app false)).2 = false ∧
    (s.enter_context (appendingBody app true)).1.cs.instructions
      = s.cs.instructions ++ [⟨[], "q"⟩] ++ app ∧
    (s.enter_context (appendingBody app true)).1.stack_depth
      = s.stack_depth + 1 ∧
    (s.enter_context (appendingBody app true)).2 = true := by
  refine ⟨?_, ?_, rfl, ?_, ?_, rfl⟩ <;>
    simp [PikepdfCanvasAccessor.enter_context, appendingBody,
      PikepdfCanvasAccessor.push, PikepdfCanvasAccessor.pop,
      ContentStreamBuilder.push, ContentStreamBuilder.pop,
      ContentStreamBuilder.append]

/-- C4 (counterexample): `draw_image` on a CMYK image raises and records no
image, but the instruction stream is NOT left as it was before the call: the
push (`q`) and matrix (`cm`) instructions emitted before the mode check
remain in it. -/
theorem C4_counterexample :
    (accEmpty.draw_image cmykImage 0 0 1 1 "/Im1").2 = true ∧
    (accEmpty.draw_image cmykImage 0 0 1 1 "/Im1").1.images
      = accEmpty.images ∧
    opNames (accEmpty.draw_image cmykImage 0 0 1 1 "/Im1").1.cs.instructions
      = ["q", "cm"] ∧
    opNames (accEmpty.draw_image cmykImage 0 0 1 1 "/Im1").1.cs.instructions
      ≠ opNames accEmpty.cs.instructions := by
  refine ⟨rfl, rfl, rfl, by decide⟩

/-- C4 (amended): for any image whose resolved color mode is not bilevel,
grayscale, or RGB, `draw_image` raises the unsupported-mode error and records
no `LoadedImage` and emits no draw instruction — but the push and
matrix-concatenation instructions emitted before the check remain appended to
the stream, and the depth counter stays incremented, because the scoped
context does not pop on the exception path. -/
theorem C4_draw_image_unsupported_mode (im : PILImage) (x y w h : ℚ)
    (nm : String) (s : PikepdfCanvasAccessor)
    (hmode : (if im.mode = "P" then im.convertRGB else im).mode
        ∉ (["1", "L", "RGB"] : List String)) :
    (s.draw_image im x y w h nm).2 = true ∧
    (s.draw_image im x y w h nm).1.images = s.images ∧
    (s.draw_image im x y w h nm).1.cs.instructions
      = s.cs.instructions ++
        [⟨[], "q"⟩,
         ⟨[.num w, .num 0, .num 0, .num h, .num x, .num y], "cm"⟩] ∧
    (s.draw_image im x y w h nm).1.stack_depth = s.stack_depth + 1 := by
  refine ⟨?_, ?_, ?_, ?_⟩ <;>
    simp [PikepdfCanvasAccessor.draw_image, PikepdfCanvasAccessor.enter_context,
      PikepdfCanvasAccessor.push, PikepdfCanvasAccessor.cm,
      ContentStreamBuilder.push, ContentStreamBuilder.cm,
      ContentStreamBuilder.append, PdfMatrix.shorthand, hmode]

/-- C4 witness: the amended theorem applied to a concrete CMYK image. -/
theorem C4_witness :
    ((if cmykImage.mode = "P" then cmykImage.convertRGB else cmykImage).mode
        ∉ (["1", "L", "RGB"] : List String)) ∧
    ((accEmpty.draw_image cmykImage 0 0 2 3 "/Im7").2 = true ∧
     (accEmpty.draw_image cmykImage 0 0 2 3 "/Im7").1.images
       = accEmpty.images ∧
     (accEmpty.draw_image cmykImage 0 0 2 3 "/Im7").1.cs.instructions
       = accEmpty.cs.instructions ++
         [⟨[], "q"⟩,
          ⟨[.num 2, .num 0, .num 0, .num 3, .num 0, .num 0], "cm"⟩] ∧
     (accEmpty.draw_image cmykImage 0 0 2 3 "/Im7").1.stack_depth
       = accEmpty.stack_depth + 1) :=
  ⟨by decide,
   C4_draw_image_unsupported_mode cmykImage 0 0 2 3 "/Im7" accEmpty (by decide)⟩

/-- C5 (code bug): `TextDirection.RTL` is a Python enum alias of `LTR` (both
members were assigned the value `...`), so every text run compares equal to
`LTR` and `show` always takes the bare show-text branch: a run constructed
with right-to-left direction appends only the `TJ` instruction, never the
`BMC /ReversedChars` / `TJ` / `EMC` triple the claim (and the dead else
branch of the source) describes.  Concretely, `show("AB")` on an RTL run
leaves the instruction stream at `BT` followed by one `TJ`. -/
theorem C5_rtl_show_emits_no_marked_content :
    (∀ d : TextDirection, d = TextDirection.LTR) ∧
    (∀ cs : ContentStreamBuilder, ∀ x y : ℚ, ∀ text : String,
      (PikepdfText.showRun ⟨cs, (x, y), TextDirection.RTL⟩ text).cs.instructions
        = cs.instructions ++ [⟨[.arr [.bytes (utf16be text)]], "TJ"⟩]) ∧
    opNames (PikepdfText.showRun (PikepdfText.construct 0 0 TextDirection.RTL)
        "AB").cs.instructions
      = ["BT", "TJ"] := by
  refine ⟨fun d => ?_, fun cs x y text => ?_, rfl⟩
  · cases d
    rfl
  · simp [PikepdfText.showRun, TextDirection.RTL,
      ContentStreamBuilder.show_text, ContentStreamBuilder.append]

/-- C6: `string_width` returns the length of the normalized text times
`fontsize / CHAR_ASPECT`, with `CHAR_ASPECT = 2`; for any normalizer fixing
"Hello" (as NFKC does on ASCII), "Hello" at size 12 yields 30. -/
theorem C6_string_width :
    (∀ nf text fn fs, PikepdfCanvas.string_width nf text fn fs
        = ((nf text).length : ℚ) * (fs / (CHAR_ASPECT : ℚ))) ∧
    CHAR_ASPECT = 2 ∧
    (∀ nf fn, nf "Hello" = "Hello" →
      PikepdfCanvas.string_width nf "Hello" fn 12 = 30) := by
  refine ⟨fun nf text fn fs => rfl, rfl, fun nf fn hnf => ?_⟩
  rw [PikepdfCanvas.string_width, hnf]
  have h5 : ("Hello" : String).length = 5 := rfl
  rw [h5, CHAR_ASPECT]
  norm_num

/-- C6 witness: the identity normalizer fixes "Hello" and yields width 30 at
size 12. -/
theorem C6_witness :
    (id "Hello" = "Hello") ∧
    PikepdfCanvas.string_width id "Hello" "/f-0-0" 12 = 30 :=
  ⟨rfl, C6_string_width.2.2 id "/f-0-0" rfl⟩

/-- C7: the ToUnicode CMap stream declares exactly one codespace range and
exactly one bfrange; the bfrange entry is `<0000> <FFFF> <0000>`, i.e. it
covers `0x0000..0xFFFF` with destination offset `0x0000`, and the mapping it
denotes sends every code in that range to itself. -/
theorem C7_toUnicode_cmap :
    linesEndingWith toUnicodeCMapLines "begincodespacerange"
      = ["1 begincodespacerange"] ∧
    sectionEntries toUnicodeCMapLines "begincodespacerange"
        "endcodespacerange"
      = ["<0000> <FFFF>"] ∧
    linesEndingWith toUnicodeCMapLines "beginbfrange" = ["1 beginbfrange"] ∧
    sectionEntries toUnicodeCMapLines "beginbfrange" "endbfrange"
      = ["<0000> <FFFF> <0000>"] ∧
    bfrangeEntryValues = [0, 65535, 0] ∧
    (∀ c, c ≤ 65535 → bfrangeImage bfrangeEntryValues c = c) := by
  refine ⟨by decide, by decide, by decide, by decide, by decide,
    fun c hc => ?_⟩
  have hv : bfrangeEntryValues = [0, 65535, 0] := by decide
  rw [hv, bfrangeImage]
  omega

/-- C7 witness: the theorem applied at code 5. -/
theorem C7_witness :
    5 ≤ 65535 ∧ bfrangeImage bfrangeEntryValues 5 = 5 :=
  ⟨by norm_num, C7_toUnicode_cmap.2.2.2.2.2 5 (by norm_num)⟩

theorem draw_image_success (im : PILImage) (x y w h : ℚ) (nm : String)
    (s : PikepdfCanvasAccessor)
    (hmode : (if im.mode = "P" then im.convertRGB else im).mode
        ∈ (["1", "L", "RGB"] : List String)) :
    (s.draw_image im x y w h nm).1.images
      = s.images ++ [⟨nm, if im.mode = "P" then im.convertRGB else im⟩] ∧
    (s.draw_image im x y w h nm).2 = false := by
  constructor <;>
    simp [PikepdfCanvasAccessor.draw_image, PikepdfCanvasAccessor.enter_context,
      PikepdfCanvasAccessor.push, PikepdfCanvasAccessor.pop,
      PikepdfCanvasAccessor.cm, hmode]

/-- C8 (counterexample): resource names come from the external
`pikepdf.Name.random` generator and the code performs no collision check, so
two successive `draw_image` calls for which the generator returns the same
name record two images with the same (non-distinct, non-page-unique) name. -/
theorem C8_counterexample :
    ((((accEmpty.draw_image rgbImage 0 0 1 1 "/Im0").1).draw_image rgbImage
          0 0 1 1 "/Im0").1.images.map LoadedImage.name
      = ["/Im0", "/Im0"]) ∧
    ¬ ((((accEmpty.draw_image rgbImage 0 0 1 1 "/Im0").1).draw_image rgbImage
          0 0 1 1 "/Im0").1.images.map LoadedImage.name).Nodup := by
  refine ⟨rfl, by decide⟩

/-- C8 (amended): two successive `draw_image` calls record exactly the two
names returned by the external random-name generator for those calls, in
order; the recorded names are distinct whenever the generator returns
distinct values (the code itself performs no uniqueness check). -/
theorem C8_draw_image_names (s : PikepdfCanvasAccessor) (im1 im2 : PILImage)
    (x1 y1 w1 ht1 x2 y2 w2 ht2 : ℚ) (nm1 nm2 : String)
    (h1m : (if im1.mode = "P" then im1.convertRGB else im1).mode
        ∈ (["1", "L", "RGB"] : List String))
    (h2m : (if im2.mode = "P" then im2.convertRGB else im2).mode
        ∈ (["1", "L", "RGB"] : List String))
    (hnm : nm1 ≠ nm2) :
    (((s.draw_image im1 x1 y1 w1 ht1 nm1).1.draw_image im2 x2 y2 w2 ht2
          nm2).1.images.map LoadedImage.name
      = s.images.map LoadedImage.name ++ [nm1, nm2]) ∧
    nm1 ≠ nm2 := by
  have hA := (draw_image_success im1 x1 y1 w1 ht1 nm1 s h1m).1
  have hB := (draw_image_success im2 x2 y2 w2 ht2 nm2
    (s.draw_image im1 x1 y1 w1 ht1 nm1).1 h2m).1
  refine ⟨?_, hnm⟩
  rw [hB, hA]
  simp

/-- C8 witness: two RGB images with distinct generator outputs. -/
theorem C8_witness :
    ((if rgbImage.mode = "P" then rgbImage.convertRGB else rgbImage).mode
        ∈ (["1", "L", "RGB"] : List String)) ∧
    ("/ImA" : String) ≠ "/ImB" ∧
    ((((accEmpty.draw_image rgbImage 0 0 1 1 "/ImA").1).draw_image rgbImage
          0 0 1 1 "/ImB").1.images.map LoadedImage.name
      = accEmpty.images.map LoadedImage.name ++ ["/ImA", "/ImB"]) :=
  ⟨by decide, by decide,
   (C8_draw_image_names accEmpty rgbImage rgbImage 0 0 1 1 0 0 1 1
     "/ImA" "/ImB" (by decide) (by decide) (by decide)).1⟩

/-- C9: `set_font` ignores its font argument — any two font values yield the
same state, and the emitted `Tf` instruction always names `/f-0-0` — which is
the same fixed name the canvas constructor stores and under which `save`
registers the glyphless font in the page resources. -/
theorem C9_set_font_fixed_name :
    (∀ t f1 f2 size,
      PikepdfText.set_font t f1 size = PikepdfText.set_font t f2 size) ∧
    (∀ t f size, (PikepdfText.set_font t f size).cs.instructions
        = t.cs.instructions ++ [⟨[.name "/f-0-0", .num size], "Tf"⟩]) ∧
    (∀ pw ph, (PikepdfCanvas.construct (pw, ph)).font_name = "/f-0-0") ∧
    (∀ c : PikepdfCanvas,
      (c.save).1.fontResources = [(c.font_name, register_glyphlessfont)]) := by
  exact ⟨fun t f1 f2 size => rfl, fun t f size => rfl, fun pw ph => rfl,
    fun c => rfl⟩

/-- C10: `set_dashes` with a single number `n` and any phase `p` emits a `d`
instruction whose array operand is the pair `(n, p)` and whose phase operand
is `0`; with no arguments (defaults `None`, `0`) it emits an empty dash
array with phase `0`. -/
theorem C10_set_dashes :
    (∀ cs n p, (ContentStreamBuilder.set_dashes cs (.numArg n) p).instructions
        = cs.instructions ++ [⟨[.arr [.num n, .num p], .num 0], "d"⟩]) ∧
    (∀ cs, (ContentStreamBuilder.set_dashes cs .noneArg 0).instructions
        = cs.instructions ++ [⟨[.arr [], .num 0], "d"⟩]) := by
  exact ⟨fun cs n p => rfl, fun cs => rfl⟩

end OCRCanvas
